import Mathlib

/-!
Shallow embedding of the wedding-gallery media storage server
(`src/server/storage.ts` of Ferjiff/weddinggallery).

The server keeps an in-memory registry (`MemStorage`) mapping integer ids to
media metadata (`MediaFile`), persists the raw bytes of each file on disk
under the key `{id}_{fileName}`, and exposes HTTP handlers for get / download /
thumbnail / upload / delete.  JavaScript `Map`s (which preserve insertion
order) and the blob directory are both modelled as insertion-ordered
association lists.  Filesystem and network effects that can fail
(`fs.writeFileSync`, `fs.unlinkSync`, the Cloudinary mirror upload) are
modelled with explicit success/failure oracles passed as arguments, and an
unreadable on-disk file (where `fs.readFileSync` throws) is a distinguished
blob slot.
-/

namespace WeddingGallery

set_option autoImplicit false

/-- Raw file bytes (a Node `Buffer`). -/
abbrev Bytes := List Nat

/-- A stored media record (`MediaFile` in `shared/schema.ts`): id plus the
client-supplied metadata.  The free-form `metadata` json bag is modelled as an
ordered key/value list of strings. -/
structure MediaFile where
  id : Int
  fileName : String
  fileType : String
  fileSize : Nat
  uploadDate : String
  metadata : List (String × String)
deriving Repr, DecidableEq

/-- The insert shape (`InsertMedia` in `shared/schema.ts`): a `MediaFile`
without the id, which the registry assigns. -/
structure InsertMedia where
  fileName : String
  fileType : String
  fileSize : Nat
  uploadDate : String
  metadata : List (String × String)
deriving Repr, DecidableEq

/-- State of one on-disk blob: readable bytes, or a file whose read throws
(`fs.readFileSync` failure). -/
inductive BlobSlot where
  | readable (data : Bytes)
  | unreadable
deriving Repr, DecidableEq

/-- Insertion-ordered association list lookup (JS `Map.get` / file lookup). -/
def alGet {α β : Type} [DecidableEq α] : List (α × β) → α → Option β
  | [], _ => none
  | (k, v) :: rest, a => if k = a then some v else alGet rest a

/-- Insertion-ordered association list update (JS `Map.set` semantics: an
existing key keeps its position, a new key is appended at the end;
`fs.writeFileSync` overwrites likewise). -/
def alSet {α β : Type} [DecidableEq α] : List (α × β) → α → β → List (α × β)
  | [], a, b => [(a, b)]
  | (k, v) :: rest, a, b => if k = a then (a, b) :: rest else (k, v) :: alSet rest a b

/-- Association list removal (JS `Map.delete` / `fs.unlinkSync`). -/
def alRemove {α β : Type} [DecidableEq α] : List (α × β) → α → List (α × β)
  | [], _ => []
  | (k, v) :: rest, a => if k = a then rest else (k, v) :: alRemove rest a

@[simp] theorem alGet_nil {α β : Type} [DecidableEq α] (a : α) :
    alGet ([] : List (α × β)) a = none := rfl

@[simp] theorem alGet_cons {α β : Type} [DecidableEq α] (k a : α) (v : β)
    (rest : List (α × β)) :
    alGet ((k, v) :: rest) a = if k = a then some v else alGet rest a := rfl

theorem alGet_alSet_self {α β : Type} [DecidableEq α]
    (m : List (α × β)) (a : α) (b : β) : alGet (alSet m a b) a = some b := by
  induction m with
  | nil => simp [alSet]
  | cons hd tl ih =>
    obtain ⟨k, v⟩ := hd
    by_cases h : k = a <;> simp [alSet, h, ih]

theorem alGet_alSet_ne {α β : Type} [DecidableEq α]
    (m : List (α × β)) (a a' : α) (b : β) (h : a ≠ a') :
    alGet (alSet m a b) a' = alGet m a' := by
  induction m with
  | nil => simp [alSet, h]
  | cons hd tl ih =>
    obtain ⟨k, v⟩ := hd
    by_cases hk : k = a
    · subst hk
      simp [alSet, h]
    · simp only [alSet, if_neg hk, alGet_cons]
      by_cases hk' : k = a' <;> simp [hk', ih]

/-- Setting a key absent from the list appends the new entry at the end. -/
theorem alSet_fresh {α β : Type} [DecidableEq α]
    (m : List (α × β)) (a : α) (b : β) (h : alGet m a = none) :
    alSet m a b = m ++ [(a, b)] := by
  induction m with
  | nil => simp [alSet]
  | cons hd tl ih =>
    obtain ⟨k, v⟩ := hd
    by_cases hk : k = a
    · simp [hk] at h
    · simp only [alGet_cons, if_neg hk] at h
      simp [alSet, hk, ih h]

/-- The in-memory storage backend (`MemStorage` in `storage.ts`), restricted
to its media half (the user half is untouched by every media flow).  `disk`
models the `media_storage` directory of the blob store. -/
structure MemStorage where
  media : List (Int × MediaFile)
  mediaCurrentId : Int
  disk : List (String × BlobSlot)
deriving Repr, DecidableEq

/-- The `MemStorage` constructor: empty maps, id counter starting at 1. -/
def MemStorage.init : MemStorage :=
  { media := [], mediaCurrentId := 1, disk := [] }

/-- The on-disk key of a blob: `` `${id}_${media.fileName}` ``. -/
def blobKey (id : Int) (fileName : String) : String :=
  toString id ++ "_" ++ fileName

/-- `getAllMedia`: `Array.from(this.media.values())` — all records in the
map's insertion order. -/
def MemStorage.getAllMedia (s : MemStorage) : List MediaFile :=
  s.media.map Prod.snd

/-- `getMediaById`: `this.media.get(id)`. -/
def MemStorage.getMediaById (s : MemStorage) (id : Int) : Option MediaFile :=
  alGet s.media id

/-- `createMedia(insertMedia, fileData)`: takes the next id (post-increment),
writes the bytes to disk under `blobKey`, then registers the record.
`writeOk` is the environment's verdict on the `fs.writeFileSync` call: when it
is `false` the write throws, so the record is never registered and the
exception surfaces as `none` (the id was already consumed by the
post-increment). -/
def MemStorage.createMedia (s : MemStorage) (m : InsertMedia) (fileData : Bytes)
    (writeOk : Bool) : Option MediaFile × MemStorage :=
  let id := s.mediaCurrentId
  let media : MediaFile :=
    { id := id, fileName := m.fileName, fileType := m.fileType,
      fileSize := m.fileSize, uploadDate := m.uploadDate, metadata := m.metadata }
  let s1 := { s with mediaCurrentId := id + 1 }
  if writeOk then
    (some media,
      { s1 with
        disk := alSet s1.disk (blobKey id m.fileName) (BlobSlot.readable fileData),
        media := alSet s1.media id media })
  else
    (none, s1)

/-- `deleteMedia(id)`: `false` when the record is absent; otherwise, inside a
try/catch, unlink the blob when it exists on disk, then remove the registry
entry and return `true`.  `unlinkOk` is the environment's verdict on
`fs.unlinkSync` (consulted only when the blob exists): when the unlink throws
the catch block returns `false` and the registry entry is left in place. -/
def MemStorage.deleteMedia (s : MemStorage) (id : Int) (unlinkOk : Bool) :
    Bool × MemStorage :=
  match alGet s.media id with
  | none => (false, s)
  | some media =>
    let key := blobKey id media.fileName
    if (alGet s.disk key).isSome then
      if unlinkOk then
        (true, { s with disk := alRemove s.disk key, media := alRemove s.media id })
      else
        (false, s)
    else
      (true, { s with media := alRemove s.media id })

/-- `getMediaFile(id)`: `undefined` when the record is absent, when the blob
file does not exist (`fs.existsSync` false), or when the read throws; the
bytes paired with the record otherwise. -/
def MemStorage.getMediaFile (s : MemStorage) (id : Int) :
    Option (Bytes × MediaFile) :=
  match alGet s.media id with
  | none => none
  | some media =>
    match alGet s.disk (blobKey id media.fileName) with
    | some (BlobSlot.readable data) => some (data, media)
    | some BlobSlot.unreadable => none
    | none => none

/-! ### HTTP layer (`registerRoutes` in `storage.ts`) -/

/-- Body of an HTTP response: a json error message, raw bytes
(`res.send(mediaData.data)`), or text (the placeholder SVG). -/
inductive RespBody where
  | json (message : String)
  | bytes (b : Bytes)
  | text (s : String)
deriving Repr, DecidableEq

/-- An HTTP response as the handlers shape it: status code, the
`Content-Type` and `Content-Disposition` headers when set, and the body. -/
structure HttpResponse where
  status : Nat
  contentType : Option String
  contentDisposition : Option String
  body : RespBody
deriving Repr, DecidableEq

/-- A json response with no extra headers. -/
def respJson (status : Nat) (message : String) : HttpResponse :=
  { status := status, contentType := none, contentDisposition := none,
    body := RespBody.json message }

/-- Whitespace skipped by JavaScript `parseInt`. -/
def jsWhitespace (c : Char) : Bool :=
  c == ' ' || c == '\t' || c == '\n' || c == '\r'

/-- Value of a list of decimal digit characters. -/
def digitsVal (cs : List Char) : Nat :=
  cs.foldl (fun a c => a * 10 + (c.toNat - 48)) 0

/-- JavaScript `parseInt(str)` (radix 10) as the route handlers use it:
skip leading whitespace, read an optional sign and then leading decimal
digits; `NaN` (here `none`) when no digit follows. -/
def parseIntJS (s : String) : Option Int :=
  let cs := s.data.dropWhile jsWhitespace
  match cs with
  | '-' :: rest =>
    let ds := rest.takeWhile Char.isDigit
    if ds.isEmpty then none else some (-(digitsVal ds : Int))
  | '+' :: rest =>
    let ds := rest.takeWhile Char.isDigit
    if ds.isEmpty then none else some ((digitsVal ds : Int))
  | _ =>
    let ds := cs.takeWhile Char.isDigit
    if ds.isEmpty then none else some ((digitsVal ds : Int))

/-- `GET /api/media/:id`: 400 on unparsable id, 404 when `getMediaFile`
comes back empty, otherwise the raw bytes under the record's mime type. -/
def getMediaHandler (s : MemStorage) (idStr : String) : HttpResponse :=
  match parseIntJS idStr with
  | none => respJson 400 "Invalid ID format"
  | some id =>
    match s.getMediaFile id with
    | none => respJson 404 "Media not found"
    | some (data, mediaInfo) =>
      { status := 200, contentType := some mediaInfo.fileType,
        contentDisposition := none, body := RespBody.bytes data }

/-- `GET /api/media/:id/download`: like the get handler plus a
`Content-Disposition: attachment` header naming the file. -/
def downloadHandler (s : MemStorage) (idStr : String) : HttpResponse :=
  match parseIntJS idStr with
  | none => respJson 400 "Invalid ID format"
  | some id =>
    match s.getMediaFile id with
    | none => respJson 404 "Media not found"
    | some (data, mediaInfo) =>
      { status := 200, contentType := some mediaInfo.fileType,
        contentDisposition :=
          some ("attachment; filename=\"" ++ mediaInfo.fileName ++ "\""),
        body := RespBody.bytes data }

/-- The placeholder SVG template up to the interpolated file name. -/
def svgPre : String :=
  "\n          <svg xmlns=\"http://www.w3.org/2000/svg\" width=\"400\" height=\"300\" viewBox=\"0 0 400 300\">\n            <rect width=\"400\" height=\"300\" fill=\"#333333\" />\n            <text x=\"50%\" y=\"50%\" fill=\"#ffffff\" font-family=\"Arial\" font-size=\"24\" text-anchor=\"middle\">\n              Video: "

/-- The placeholder SVG template after the interpolated file name. -/
def svgPost : String :=
  "\n            </text>\n          </svg>\n        "

/-- The video placeholder SVG with the record's file name interpolated. -/
def placeholderSvg (fileName : String) : String :=
  svgPre ++ fileName ++ svgPost

/-- JavaScript `String.startsWith`: the characters of `p` lead those of `s`. -/
def strStartsWith (s p : String) : Bool :=
  p.data.isPrefixOf s.data

/-- `GET /api/media/:id/thumbnail`: for a video mime type, a synthesized SVG
placeholder; otherwise a passthrough of `getMediaFile` (404 when the blob is
missing). -/
def thumbnailHandler (s : MemStorage) (idStr : String) : HttpResponse :=
  match parseIntJS idStr with
  | none => respJson 400 "Invalid ID format"
  | some id =>
    match s.getMediaById id with
    | none => respJson 404 "Media not found"
    | some mediaInfo =>
      if strStartsWith mediaInfo.fileType "video/" then
        { status := 200, contentType := some "image/svg+xml",
          contentDisposition := none,
          body := RespBody.text (placeholderSvg mediaInfo.fileName) }
      else
        match s.getMediaFile id with
        | none => respJson 404 "Media file not found"
        | some (data, _) =>
          { status := 200, contentType := some mediaInfo.fileType,
            contentDisposition := none, body := RespBody.bytes data }

/-! ### Upload pipeline -/

/-- One multipart file part as multer hands it to the route
(`Express.Multer.File`). -/
structure IncomingFile where
  originalname : String
  mimetype : String
  size : Nat
  buffer : Bytes
deriving Repr, DecidableEq

/-- The multer `fileFilter`: only mime types starting with `image/` or
`video/` are accepted; every other part is silently dropped. -/
def fileFilterAccepts (f : IncomingFile) : Bool :=
  strStartsWith f.mimetype "image/" || strStartsWith f.mimetype "video/"

/-- The `mediaData` record the upload loop builds per file (`now` stands for
`new Date().toISOString()`).  `insertMediaSchema.parse` only checks the shape
that this typed record has by construction. -/
def mkMediaData (f : IncomingFile) (now : String) : InsertMedia :=
  { fileName := f.originalname, fileType := f.mimetype, fileSize := f.size,
    uploadDate := now, metadata := [("originalName", f.originalname)] }

/-- One entry of the batch `results` array: `{id, fileName, status: "success"}`
(plus `cloudinaryUrl` in the mirrored variant) or
`{fileName, status: "error", message}`. -/
inductive UploadEntry where
  | success (id : Int) (fileName : String)
  | successMirror (id : Int) (fileName : String) (cloudinaryUrl : String)
  | error (fileName : String) (message : String)
deriving Repr, DecidableEq

/-- The `fileName` field of a results entry. -/
def UploadEntry.entryFileName : UploadEntry → String
  | success _ fn => fn
  | successMirror _ fn _ => fn
  | error fn _ => fn

/-- The model's stand-in for the `error.message` of a failed disk write. -/
def writeErrorMessage : String := "write failed"

/-- The per-file loop of `POST /api/media/upload`: each file independently
gets a `success` entry when `createMedia` succeeds and an `error` entry when
it throws; `env k` is the environment's verdict on the k-th file's disk
write. -/
def processFiles (env : Nat → Bool) (now : String) :
    MemStorage → Nat → List IncomingFile → List UploadEntry × MemStorage
  | s, _, [] => ([], s)
  | s, k, f :: rest =>
    match MemStorage.createMedia s (mkMediaData f now) f.buffer (env k) with
    | (some rec, s1) =>
      (UploadEntry.success rec.id rec.fileName ::
        (processFiles env now s1 (k + 1) rest).1,
       (processFiles env now s1 (k + 1) rest).2)
    | (none, s1) =>
      (UploadEntry.error f.originalname writeErrorMessage ::
        (processFiles env now s1 (k + 1) rest).1,
       (processFiles env now s1 (k + 1) rest).2)

/-- Status plus results array of the batch upload response. -/
structure UploadResponse where
  status : Nat
  results : List UploadEntry
deriving Repr, DecidableEq

/-- multer's `limits.fileSize` cap: `50 * 1024 * 1024` bytes. -/
def multerFileSizeLimit : Nat := 50 * 1024 * 1024

/-- `true` when some file accepted by the `fileFilter` exceeds
`limits.fileSize`: multer then aborts the whole request with a
`LIMIT_FILE_SIZE` `MulterError` before the route handler runs, and the error
middleware answers 500 (files dropped by the filter are never streamed
against the cap). -/
def multerSizeAborts (batch : List IncomingFile) : Bool :=
  (batch.filter fileFilterAccepts).any (fun f => multerFileSizeLimit < f.size)

/-- `POST /api/media/upload`: multer filters the batch and enforces the
50 MiB per-file size cap — an oversized accepted file aborts the request,
answered 500 with no results array and no storage effect.  Otherwise the
handler answers 400 when no file survived the filter, and 201 with one
results entry per accepted file. -/
def uploadRoute (s : MemStorage) (batch : List IncomingFile) (env : Nat → Bool)
    (now : String) : UploadResponse × MemStorage :=
  if multerSizeAborts batch then ({ status := 500, results := [] }, s)
  else
    let accepted := batch.filter fileFilterAccepts
    if accepted.isEmpty then ({ status := 400, results := [] }, s)
    else
      ({ status := 201, results := (processFiles env now s 0 accepted).1 },
       (processFiles env now s 0 accepted).2)

/-- The model's stand-in for the `error.message` of a failed mirror upload. -/
def mirrorErrorMessage : String := "mirror failed"

/-- The per-file loop of the mirrored upload variant: the Cloudinary upload
is awaited first (`mirror k` is its outcome for the k-th file — `none` for a
rejection); on success its URL is written into `mediaData.metadata` before
`createMedia` persists the record locally, and on failure the file is marked
`error` with no local effect. -/
def processFilesMirror (env : Nat → Bool) (mirror : Nat → Option String)
    (now : String) :
    MemStorage → Nat → List IncomingFile → List UploadEntry × MemStorage
  | s, _, [] => ([], s)
  | s, k, f :: rest =>
    match mirror k with
    | none =>
      (UploadEntry.error f.originalname mirrorErrorMessage ::
        (processFilesMirror env mirror now s (k + 1) rest).1,
       (processFilesMirror env mirror now s (k + 1) rest).2)
    | some url =>
      let md := mkMediaData f now
      let md2 := { md with metadata := md.metadata ++ [("cloudinaryUrl", url)] }
      match MemStorage.createMedia s md2 f.buffer (env k) with
      | (some rec, s1) =>
        (UploadEntry.successMirror rec.id rec.fileName url ::
          (processFilesMirror env mirror now s1 (k + 1) rest).1,
         (processFilesMirror env mirror now s1 (k + 1) rest).2)
      | (none, s1) =>
        (UploadEntry.error f.originalname writeErrorMessage ::
          (processFilesMirror env mirror now s1 (k + 1) rest).1,
         (processFilesMirror env mirror now s1 (k + 1) rest).2)

/-! ### Operation traces (for the id-assignment and listing invariants) -/

/-- A state-changing storage operation: a create (with its disk-write
verdict) or a delete (with its unlink verdict). -/
inductive Op where
  | createOp (m : InsertMedia) (b : Bytes) (writeOk : Bool)
  | deleteOp (id : Int) (unlinkOk : Bool)
deriving Repr

/-- Run a list of operations; also collect, in order, the ids of the records
the successful `createMedia` calls returned. -/
def runOps : MemStorage → List Op → MemStorage × List Int
  | s, [] => (s, [])
  | s, Op.createOp m b ok :: rest =>
    match MemStorage.createMedia s m b ok with
    | (some rec, s') =>
      ((runOps s' rest).1, rec.id :: (runOps s' rest).2)
    | (none, s') => runOps s' rest
  | s, Op.deleteOp i ok :: rest =>
    runOps (MemStorage.deleteMedia s i ok).2 rest

/-- Run a list of successful creates; collect the returned records in order. -/
def runCreates : MemStorage → List (InsertMedia × Bytes) → MemStorage × List MediaFile
  | s, [] => (s, [])
  | s, (m, b) :: rest =>
    match MemStorage.createMedia s m b true with
    | (some rec, s') =>
      ((runCreates s' rest).1, rec :: (runCreates s' rest).2)
    | (none, s') => runCreates s' rest

/-! ### Claims -/

/-- Keys absent from an association list are exactly those `alGet` misses. -/
theorem alGet_eq_none_iff {α β : Type} [DecidableEq α]
    (m : List (α × β)) (a : α) : alGet m a = none ↔ a ∉ m.map Prod.fst := by
  induction m with
  | nil => simp
  | cons hd tl ih =>
    obtain ⟨k, v⟩ := hd
    by_cases h : k = a
    · subst h
      simp
    · rw [alGet_cons, if_neg h, ih, List.map_cons, List.mem_cons]
      constructor
      · intro hn hc
        rcases hc with hc | hc
        · exact h hc.symm
        · exact hn hc
      · intro hn hc
        exact hn (Or.inr hc)

/-- C2: `createMedia` is atomic with respect to registration: when the disk
write fails, the call surfaces no record, the registry map is untouched, and
the would-be id resolves to nothing afterwards (as it did before). -/
theorem createMedia_write_failure_atomic (s : MemStorage) (m : InsertMedia)
    (b : Bytes) (hfresh : alGet s.media s.mediaCurrentId = none) :
    (MemStorage.createMedia s m b false).1 = none ∧
    ((MemStorage.createMedia s m b false).2).media = s.media ∧
    MemStorage.getAllMedia (MemStorage.createMedia s m b false).2 =
      MemStorage.getAllMedia s ∧
    (∀ i : Int, MemStorage.getMediaById (MemStorage.createMedia s m b false).2 i =
      MemStorage.getMediaById s i) ∧
    MemStorage.getMediaById (MemStorage.createMedia s m b false).2
      s.mediaCurrentId = none ∧
    s.mediaCurrentId ∉
      ((MemStorage.createMedia s m b false).2).media.map Prod.fst := by
  refine ⟨rfl, rfl, rfl, fun i => rfl, ?_, ?_⟩
  · exact hfresh
  · exact (alGet_eq_none_iff s.media s.mediaCurrentId).mp hfresh

/-- C2 witness: on the freshly constructed storage, a failing write changes
nothing in the registry. -/
theorem createMedia_write_failure_atomic_witness :
    (MemStorage.createMedia MemStorage.init
      { fileName := "a.jpg", fileType := "image/jpeg", fileSize := 2,
        uploadDate := "2024-01-01", metadata := [] } [1, 2] false).1 = none ∧
    ((MemStorage.createMedia MemStorage.init
      { fileName := "a.jpg", fileType := "image/jpeg", fileSize := 2,
        uploadDate := "2024-01-01", metadata := [] } [1, 2] false).2).media =
      MemStorage.init.media ∧
    MemStorage.getAllMedia (MemStorage.createMedia MemStorage.init
      { fileName := "a.jpg", fileType := "image/jpeg", fileSize := 2,
        uploadDate := "2024-01-01", metadata := [] } [1, 2] false).2 =
      MemStorage.getAllMedia MemStorage.init ∧
    (∀ i : Int, MemStorage.getMediaById (MemStorage.createMedia MemStorage.init
      { fileName := "a.jpg", fileType := "image/jpeg", fileSize := 2,
        uploadDate := "2024-01-01", metadata := [] } [1, 2] false).2 i =
      MemStorage.getMediaById MemStorage.init i) ∧
    MemStorage.getMediaById (MemStorage.createMedia MemStorage.init
      { fileName := "a.jpg", fileType := "image/jpeg", fileSize := 2,
        uploadDate := "2024-01-01", metadata := [] } [1, 2] false).2
      MemStorage.init.mediaCurrentId = none ∧
    MemStorage.init.mediaCurrentId ∉
      ((MemStorage.createMedia MemStorage.init
        { fileName := "a.jpg", fileType := "image/jpeg", fileSize := 2,
          uploadDate := "2024-01-01", metadata := [] } [1, 2] false).2).media.map
        Prod.fst :=
  createMedia_write_failure_atomic MemStorage.init _ _ rfl

/-- C4: `createMedia` followed immediately by `getMediaFile` on the returned
id yields exactly the bytes passed in together with the returned record, and
that record carries the insert metadata unchanged (`uploadDate` included),
with only `id` populated. -/
theorem createMedia_getMediaFile_roundtrip (s : MemStorage) (m : InsertMedia)
    (b : Bytes) (rec : MediaFile) (s' : MemStorage)
    (h : MemStorage.createMedia s m b true = (some rec, s')) :
    MemStorage.getMediaFile s' rec.id = some (b, rec) ∧
    rec.id = s.mediaCurrentId ∧
    rec.fileName = m.fileName ∧ rec.fileType = m.fileType ∧
    rec.fileSize = m.fileSize ∧ rec.uploadDate = m.uploadDate ∧
    rec.metadata = m.metadata := by
  have hrec : rec =
      { id := s.mediaCurrentId, fileName := m.fileName, fileType := m.fileType,
        fileSize := m.fileSize, uploadDate := m.uploadDate,
        metadata := m.metadata } := by
    have := congrArg Prod.fst h
    simpa [MemStorage.createMedia] using this.symm
  have hs' : s' =
      { media := alSet s.media s.mediaCurrentId
          { id := s.mediaCurrentId, fileName := m.fileName,
            fileType := m.fileType, fileSize := m.fileSize,
            uploadDate := m.uploadDate, metadata := m.metadata },
        mediaCurrentId := s.mediaCurrentId + 1,
        disk := alSet s.disk (blobKey s.mediaCurrentId m.fileName)
          (BlobSlot.readable b) } := by
    have := congrArg Prod.snd h
    simpa [MemStorage.createMedia] using this.symm
  subst hrec
  subst hs'
  refine ⟨?_, rfl, rfl, rfl, rfl, rfl, rfl⟩
  simp [MemStorage.getMediaFile, alGet_alSet_self]

/-- C4 witness: creating `a.jpg` with bytes `[1, 2]` in the fresh storage and
reading id 1 back returns those bytes with the created record. -/
theorem createMedia_getMediaFile_roundtrip_witness :
    MemStorage.getMediaFile
      (MemStorage.createMedia MemStorage.init
        { fileName := "a.jpg", fileType := "image/jpeg", fileSize := 2,
          uploadDate := "2024-01-01", metadata := [] } [1, 2] true).2
      1 = some ([1, 2],
        { id := 1, fileName := "a.jpg", fileType := "image/jpeg", fileSize := 2,
          uploadDate := "2024-01-01", metadata := [] }) := by
  have h := createMedia_getMediaFile_roundtrip MemStorage.init
    { fileName := "a.jpg", fileType := "image/jpeg", fileSize := 2,
      uploadDate := "2024-01-01", metadata := [] } [1, 2]
    { id := 1, fileName := "a.jpg", fileType := "image/jpeg", fileSize := 2,
      uploadDate := "2024-01-01", metadata := [] }
    (MemStorage.createMedia MemStorage.init
      { fileName := "a.jpg", fileType := "image/jpeg", fileSize := 2,
        uploadDate := "2024-01-01", metadata := [] } [1, 2] true).2
    rfl
  exact h.1

/-- C9: `getMediaFile` comes back empty exactly when the record is missing
from the registry or the record's blob is missing or unreadable on disk; in
the remaining case (record present, blob readable) it returns the blob's
bytes together with the record. -/
theorem getMediaFile_failure_characterization (s : MemStorage) (i : Int) :
    (MemStorage.getMediaFile s i = none ↔
      alGet s.media i = none ∨
      ∃ info, alGet s.media i = some info ∧
        ∀ data, alGet s.disk (blobKey i info.fileName) ≠
          some (BlobSlot.readable data)) ∧
    ∀ info data, alGet s.media i = some info →
      alGet s.disk (blobKey i info.fileName) = some (BlobSlot.readable data) →
      MemStorage.getMediaFile s i = some (data, info) := by
  constructor
  · unfold MemStorage.getMediaFile
    rcases hm : alGet s.media i with _ | info
    · simp
    · rcases hd : alGet s.disk (blobKey i info.fileName) with _ | slot
      · simp [hm, hd]
      · cases slot <;> simp [hm, hd]
  · intro info data hm hd
    simp [MemStorage.getMediaFile, hm, hd]

/-- C7: on all three id-addressed read endpoints (get, download, thumbnail),
a parsable id absent from the registry yields 404 and an unparsable id
yields 400. -/
theorem id_handlers_404_and_400 (s : MemStorage) (missStr badStr : String)
    (i : Int)
    (hparse : parseIntJS missStr = some i)
    (hmiss : alGet s.media i = none)
    (hbad : parseIntJS badStr = none) :
    (getMediaHandler s missStr).status = 404 ∧
    (downloadHandler s missStr).status = 404 ∧
    (thumbnailHandler s missStr).status = 404 ∧
    (getMediaHandler s badStr).status = 400 ∧
    (downloadHandler s badStr).status = 400 ∧
    (thumbnailHandler s badStr).status = 400 := by
  have hfile : MemStorage.getMediaFile s i = none := by
    simp [MemStorage.getMediaFile, hmiss]
  have hbyid : MemStorage.getMediaById s i = none := hmiss
  refine ⟨?_, ?_, ?_, ?_, ?_, ?_⟩ <;>
    simp [getMediaHandler, downloadHandler, thumbnailHandler, hparse, hbad,
      hfile, hbyid, respJson]

/-- C7 witness: on the fresh storage, id string `"7"` gets 404 and id string
`"abc"` gets 400 from all three endpoints. -/
theorem id_handlers_404_and_400_witness :
    (getMediaHandler MemStorage.init "7").status = 404 ∧
    (downloadHandler MemStorage.init "7").status = 404 ∧
    (thumbnailHandler MemStorage.init "7").status = 404 ∧
    (getMediaHandler MemStorage.init "abc").status = 400 ∧
    (downloadHandler MemStorage.init "abc").status = 400 ∧
    (thumbnailHandler MemStorage.init "abc").status = 400 :=
  id_handlers_404_and_400 MemStorage.init "7" "abc" 7 (by decide) rfl (by decide)

/-- Removing a key from an association list whose keys are distinct makes the
key unresolvable. -/
theorem alGet_alRemove_self {α β : Type} [DecidableEq α]
    (m : List (α × β)) (a : α) (h : (m.map Prod.fst).Nodup) :
    alGet (alRemove m a) a = none := by
  induction m with
  | nil => simp [alRemove]
  | cons hd tl ih =>
    obtain ⟨k, v⟩ := hd
    simp only [List.map_cons, List.nodup_cons] at h
    by_cases hk : k = a
    · subst hk
      rw [alRemove, if_pos rfl, alGet_eq_none_iff]
      exact h.1
    · rw [alRemove, if_neg hk, alGet_cons, if_neg hk]
      exact ih h.2

/-- A concrete registered record used to exercise `deleteMedia`. -/
def c1Rec : MediaFile :=
  { id := 1, fileName := "a.jpg", fileType := "image/jpeg", fileSize := 2,
    uploadDate := "2024-01-01", metadata := [] }

/-- A storage state holding `c1Rec` under id 1 with its blob on disk. -/
def c1State : MemStorage :=
  { media := [(1, c1Rec)], mediaCurrentId := 2,
    disk := [(blobKey 1 "a.jpg", BlobSlot.readable [7, 8])] }

/-- C1 counterexample: with record 1 and its blob present, a failing unlink
makes `deleteMedia` return `false` and leave the registry entry in place —
against the claim that the entry is removed unconditionally and `true` is
returned whenever the record exists. -/
theorem deleteMedia_unlink_failure_counterexample :
    (MemStorage.deleteMedia c1State 1 false).1 = false ∧
    alGet ((MemStorage.deleteMedia c1State 1 false).2).media 1 = some c1Rec := by
  constructor <;> rfl

/-- C1 amended: `deleteMedia` returns `false` when no record exists; when the
record exists but its blob is on disk and the unlink throws, the failure is
caught, the registry entry is kept and `false` is returned; when the blob
deletion does not throw, the registry entry is removed and `true` is
returned. -/
theorem deleteMedia_amended_behavior (sA sB sC : MemStorage) (iA iB iC : Int)
    (uA : Bool) (recB recC : MediaFile)
    (hA : alGet sA.media iA = none)
    (hB : alGet sB.media iB = some recB)
    (hBblob : (alGet sB.disk (blobKey iB recB.fileName)).isSome = true)
    (hC : alGet sC.media iC = some recC)
    (hCnodup : (sC.media.map Prod.fst).Nodup) :
    MemStorage.deleteMedia sA iA uA = (false, sA) ∧
    MemStorage.deleteMedia sB iB false = (false, sB) ∧
    (MemStorage.deleteMedia sC iC true).1 = true ∧
    alGet ((MemStorage.deleteMedia sC iC true).2).media iC = none := by
  refine ⟨?_, ?_, ?_, ?_⟩
  · simp [MemStorage.deleteMedia, hA]
  · simp [MemStorage.deleteMedia, hB, hBblob]
  · rcases hCd : (alGet sC.disk (blobKey iC recC.fileName)).isSome with _ | _ <;>
      simp [MemStorage.deleteMedia, hC, hCd]
  · rcases hCd : (alGet sC.disk (blobKey iC recC.fileName)).isSome with _ | _ <;>
      simp [MemStorage.deleteMedia, hC, hCd, alGet_alRemove_self _ _ hCnodup]

/-- C1 witness: the amended behavior at concrete states — empty storage for
the missing-record case and `c1State` for the failing-unlink and successful
deletion cases. -/
theorem deleteMedia_amended_behavior_witness :
    MemStorage.deleteMedia MemStorage.init 1 true = (false, MemStorage.init) ∧
    MemStorage.deleteMedia c1State 1 false = (false, c1State) ∧
    (MemStorage.deleteMedia c1State 1 true).1 = true ∧
    alGet ((MemStorage.deleteMedia c1State 1 true).2).media 1 = none :=
  deleteMedia_amended_behavior MemStorage.init c1State c1State 1 1 1 true
    c1Rec c1Rec rfl rfl (by decide) rfl (by decide)

/-- A concrete video record for the thumbnail claim. -/
def c6VideoRec : MediaFile :=
  { id := 1, fileName := "w.mp4", fileType := "video/mp4", fileSize := 5,
    uploadDate := "2024-01-01", metadata := [] }

/-- A concrete image record for the thumbnail claim. -/
def c6ImageRec : MediaFile :=
  { id := 2, fileName := "p.png", fileType := "image/png", fileSize := 1,
    uploadDate := "2024-01-01", metadata := [] }

/-- A storage state holding the video record (id 1) and the image record
(id 2) with the image blob on disk. -/
def c6State : MemStorage :=
  { media := [(1, c6VideoRec), (2, c6ImageRec)], mediaCurrentId := 3,
    disk := [(blobKey 2 "p.png", BlobSlot.readable [9, 9])] }

/-- C6: the thumbnail of a registered video record is a 200 `image/svg+xml`
response whose text body contains the record's `fileName`; the thumbnail of a
registered non-video record whose blob exists is byte-identical to the body
of the direct get endpoint. -/
theorem thumbnail_video_svg_image_passthrough
    (s : MemStorage) (vStr iStr : String) (vId iId : Int)
    (vInfo iInfo : MediaFile) (iData : Bytes)
    (hvp : parseIntJS vStr = some vId)
    (hv : MemStorage.getMediaById s vId = some vInfo)
    (hvt : strStartsWith vInfo.fileType "video/" = true)
    (hip : parseIntJS iStr = some iId)
    (hi : MemStorage.getMediaById s iId = some iInfo)
    (hit : strStartsWith iInfo.fileType "video/" = false)
    (hif : MemStorage.getMediaFile s iId = some (iData, iInfo)) :
    (thumbnailHandler s vStr).status = 200 ∧
    (thumbnailHandler s vStr).contentType = some "image/svg+xml" ∧
    (thumbnailHandler s vStr).body =
      RespBody.text (placeholderSvg vInfo.fileName) ∧
    (∃ pre post : String,
      placeholderSvg vInfo.fileName = pre ++ vInfo.fileName ++ post) ∧
    (thumbnailHandler s iStr).status = 200 ∧
    (thumbnailHandler s iStr).body = RespBody.bytes iData ∧
    (getMediaHandler s iStr).body = RespBody.bytes iData ∧
    (thumbnailHandler s iStr).body = (getMediaHandler s iStr).body := by
  refine ⟨?_, ?_, ?_, ⟨svgPre, svgPost, rfl⟩, ?_, ?_, ?_, ?_⟩ <;>
    simp [thumbnailHandler, getMediaHandler, hvp, hv, hvt, hip, hi, hit, hif]

/-- C6 witness: on a state holding a video record (id 1) and an image record
(id 2, blob `[9, 9]` on disk), the thumbnail endpoint behaves as claimed. -/
theorem thumbnail_video_svg_image_passthrough_witness :
    (thumbnailHandler c6State "1").status = 200 ∧
    (thumbnailHandler c6State "1").contentType = some "image/svg+xml" ∧
    (thumbnailHandler c6State "1").body =
      RespBody.text (placeholderSvg c6VideoRec.fileName) ∧
    (∃ pre post : String,
      placeholderSvg c6VideoRec.fileName =
        pre ++ c6VideoRec.fileName ++ post) ∧
    (thumbnailHandler c6State "2").status = 200 ∧
    (thumbnailHandler c6State "2").body = RespBody.bytes [9, 9] ∧
    (getMediaHandler c6State "2").body = RespBody.bytes [9, 9] ∧
    (thumbnailHandler c6State "2").body = (getMediaHandler c6State "2").body :=
  thumbnail_video_svg_image_passthrough c6State "1" "2" 1 2
    c6VideoRec c6ImageRec [9, 9]
    (by decide) rfl (by decide) (by decide) rfl (by decide) (by decide)

/-- Any `createMedia` call, successful or not, advances the id counter by
one (`this.mediaCurrentId++`). -/
theorem createMedia_counter (s : MemStorage) (m : InsertMedia) (b : Bytes)
    (ok : Bool) :
    ((MemStorage.createMedia s m b ok).2).mediaCurrentId =
      s.mediaCurrentId + 1 := by
  cases ok <;> rfl

/-- `deleteMedia` never touches the id counter. -/
theorem deleteMedia_counter (s : MemStorage) (i : Int) (ok : Bool) :
    ((MemStorage.deleteMedia s i ok).2).mediaCurrentId = s.mediaCurrentId := by
  unfold MemStorage.deleteMedia
  rcases alGet s.media i with _ | media
  · rfl
  · dsimp only
    split
    · split <;> rfl
    · rfl

/-- One failed create in a run: the id is consumed, nothing is returned. -/
theorem runOps_createOp_false (s : MemStorage) (m : InsertMedia) (b : Bytes)
    (rest : List Op) :
    runOps s (Op.createOp m b false :: rest) =
      runOps { s with mediaCurrentId := s.mediaCurrentId + 1 } rest := rfl

/-- One successful create in a run: the current counter value is returned and
the run continues in the updated state. -/
theorem runOps_createOp_true (s : MemStorage) (m : InsertMedia) (b : Bytes)
    (rest : List Op) :
    runOps s (Op.createOp m b true :: rest) =
      ((runOps (MemStorage.createMedia s m b true).2 rest).1,
       s.mediaCurrentId ::
         (runOps (MemStorage.createMedia s m b true).2 rest).2) := rfl

/-- One delete in a run. -/
theorem runOps_deleteOp (s : MemStorage) (i : Int) (ok : Bool)
    (rest : List Op) :
    runOps s (Op.deleteOp i ok :: rest) =
      runOps (MemStorage.deleteMedia s i ok).2 rest := rfl

/-- Every id a run returns is at least the starting counter value. -/
theorem runOps_ids_lb (ops : List Op) : ∀ (s : MemStorage), ∀ i ∈ (runOps s ops).2,
    s.mediaCurrentId ≤ i := by
  induction ops with
  | nil =>
    intro s i hi
    simp [runOps] at hi
  | cons op rest ih =>
    intro s i hi
    cases op with
    | createOp m b ok =>
      cases ok
      · rw [runOps_createOp_false] at hi
        have h : s.mediaCurrentId + 1 ≤ i := ih _ i hi
        omega
      · rw [runOps_createOp_true] at hi
        rcases List.mem_cons.mp hi with h | h
        · omega
        · have h2 := ih _ i h
          rw [createMedia_counter] at h2
          omega
    | deleteOp j ok =>
      rw [runOps_deleteOp] at hi
      have h2 := ih _ i hi
      rwa [deleteMedia_counter] at h2

/-- The ids a run returns are strictly increasing in return order. -/
theorem runOps_pairwise (ops : List Op) : ∀ (s : MemStorage),
    List.Pairwise (· < ·) (runOps s ops).2 := by
  induction ops with
  | nil =>
    intro s
    simp [runOps]
  | cons op rest ih =>
    intro s
    cases op with
    | createOp m b ok =>
      cases ok
      · rw [runOps_createOp_false]
        exact ih _
      · rw [runOps_createOp_true]
        refine List.Pairwise.cons ?_ (ih _)
        intro j hj
        have h2 := runOps_ids_lb rest _ j hj
        rw [createMedia_counter] at h2
        omega
    | deleteOp j ok =>
      rw [runOps_deleteOp]
      exact ih _

/-- C3: over every sequence of creates and deletes from the constructor
state, the ids returned by the successful `createMedia` calls are strictly
increasing in creation order — so each is strictly greater than every
earlier one, and no id is ever reused, deletions included. -/
theorem media_ids_monotone_never_reused (ops : List Op) :
    List.Pairwise (· < ·) (runOps MemStorage.init ops).2 ∧
    (runOps MemStorage.init ops).2.Nodup :=
  ⟨runOps_pairwise ops MemStorage.init,
   (runOps_pairwise ops MemStorage.init).imp fun h => ne_of_lt h⟩

/-- One step of a run of successful creates. -/
theorem runCreates_step (s : MemStorage) (m : InsertMedia) (b : Bytes)
    (rest : List (InsertMedia × Bytes)) :
    runCreates s ((m, b) :: rest) =
      ((runCreates (MemStorage.createMedia s m b true).2 rest).1,
       { id := s.mediaCurrentId, fileName := m.fileName, fileType := m.fileType,
         fileSize := m.fileSize, uploadDate := m.uploadDate,
         metadata := m.metadata } ::
         (runCreates (MemStorage.createMedia s m b true).2 rest).2) := rfl

/-- Generalized listing invariant: from a state whose registry keys all lie
below the counter, a run of successful creates appends its records to
`getAllMedia` in creation order and hands out the counter values
consecutively. -/
theorem runCreates_spec (inputs : List (InsertMedia × Bytes)) :
    ∀ (s : MemStorage), (∀ p ∈ s.media, p.1 < s.mediaCurrentId) →
    MemStorage.getAllMedia (runCreates s inputs).1 =
      MemStorage.getAllMedia s ++ (runCreates s inputs).2 ∧
    (runCreates s inputs).2.map MediaFile.id =
      (List.range inputs.length).map (fun (k : Nat) => s.mediaCurrentId + (k : Int)) := by
  induction inputs with
  | nil =>
    intro s _
    simp [runCreates]
  | cons p rest ih =>
    obtain ⟨m, b⟩ := p
    intro s hinv
    have hfresh : alGet s.media s.mediaCurrentId = none := by
      rw [alGet_eq_none_iff]
      intro hmem
      rcases List.mem_map.mp hmem with ⟨q, hq, hqe⟩
      have hlt := hinv q hq
      omega
    have hmedia2 : ((MemStorage.createMedia s m b true).2).media =
        s.media ++ [(s.mediaCurrentId,
          { id := s.mediaCurrentId, fileName := m.fileName,
            fileType := m.fileType, fileSize := m.fileSize,
            uploadDate := m.uploadDate, metadata := m.metadata })] :=
      alSet_fresh s.media s.mediaCurrentId _ hfresh
    have hinv2 : ∀ q ∈ ((MemStorage.createMedia s m b true).2).media,
        q.1 < ((MemStorage.createMedia s m b true).2).mediaCurrentId := by
      intro q hq
      rw [createMedia_counter]
      rw [hmedia2] at hq
      rcases List.mem_append.mp hq with h | h
      · have hlt := hinv q h
        omega
      · simp only [List.mem_singleton] at h
        subst h
        show s.mediaCurrentId < s.mediaCurrentId + 1
        omega
    obtain ⟨ih1, ih2⟩ := ih _ hinv2
    rw [runCreates_step]
    constructor
    · show MemStorage.getAllMedia (runCreates (MemStorage.createMedia s m b true).2 rest).1 = _
      rw [ih1]
      unfold MemStorage.getAllMedia
      rw [hmedia2]
      simp
    · show _ :: (runCreates (MemStorage.createMedia s m b true).2 rest).2.map MediaFile.id = _
      rw [ih2, createMedia_counter]
      simp only [List.length_cons]
      rw [List.range_succ_eq_map, List.map_cons, List.map_map]
      refine List.cons_eq_cons.mpr ⟨?_, ?_⟩
      · simp
      · refine List.map_congr_left ?_
        intro k _
        simp only [Function.comp]
        push_cast
        ring

/-- C5: from the constructor state, a run of n successful creates (and no
deletions) makes `getAllMedia` return exactly the created records in
creation order, carrying the ids 1..n. -/
theorem getAllMedia_insertion_order (inputs : List (InsertMedia × Bytes)) :
    MemStorage.getAllMedia (runCreates MemStorage.init inputs).1 =
      (runCreates MemStorage.init inputs).2 ∧
    (runCreates MemStorage.init inputs).2.map MediaFile.id =
      (List.range inputs.length).map (fun (k : Nat) => (1 : Int) + (k : Int)) := by
  have h := runCreates_spec inputs MemStorage.init
    (by intro p hp; simp [MemStorage.init] at hp)
  refine ⟨?_, h.2⟩
  have h1 := h.1
  simpa [MemStorage.init, MemStorage.getAllMedia] using h1

/-- The per-file upload loop yields exactly one entry per file, carrying that
file's name, and every entry is a success (with an id) or an error (with a
message). -/
theorem processFiles_cons (env : Nat → Bool) (now : String) (s : MemStorage)
    (k : Nat) (f : IncomingFile) (rest : List IncomingFile) :
    processFiles env now s k (f :: rest) =
      ((if env k then UploadEntry.success s.mediaCurrentId f.originalname
        else UploadEntry.error f.originalname writeErrorMessage) ::
        (processFiles env now
          (MemStorage.createMedia s (mkMediaData f now) f.buffer (env k)).2
          (k + 1) rest).1,
       (processFiles env now
          (MemStorage.createMedia s (mkMediaData f now) f.buffer (env k)).2
          (k + 1) rest).2) := by
  rcases he : env k with _ | _ <;>
    simp [processFiles, he, MemStorage.createMedia, mkMediaData]

theorem processFiles_shape (now : String) (files : List IncomingFile) :
    ∀ (env : Nat → Bool) (s : MemStorage) (k : Nat),
    ((processFiles env now s k files).1).length = files.length ∧
    ((processFiles env now s k files).1).map UploadEntry.entryFileName =
      files.map IncomingFile.originalname ∧
    ∀ r ∈ (processFiles env now s k files).1,
      (∃ i fn, r = UploadEntry.success i fn) ∨
      (∃ fn msg, r = UploadEntry.error fn msg) := by
  induction files with
  | nil =>
    intro env s k
    simp [processFiles]
  | cons f rest ih =>
    intro env s k
    rw [processFiles_cons]
    obtain ⟨ihl, ihn, ihe⟩ := ih env
      (MemStorage.createMedia s (mkMediaData f now) f.buffer (env k)).2 (k + 1)
    refine ⟨by simp [ihl], ?_, ?_⟩
    · simp only [List.map_cons, ihn]
      rcases env k with _ | _ <;> simp [UploadEntry.entryFileName]
    · intro r hr
      rcases List.mem_cons.mp hr with hr | hr
      · subst hr
        rcases env k with _ | _
        · exact Or.inr ⟨_, _, rfl⟩
        · exact Or.inl ⟨_, _, rfl⟩
      · exact ihe r hr

/-- A batch whose two files both pass the mime filter but whose second file
exceeds the 50 MiB cap (its size matches its buffer's length). -/
def c8OversizedBatch : List IncomingFile :=
  [{ originalname := "beach.jpg", mimetype := "image/jpeg", size := 2,
     buffer := [1, 2] },
   { originalname := "big.mp4", mimetype := "video/mp4", size := 52428801,
     buffer := List.replicate 52428801 0 }]

/-- C8 counterexample: a batch in which files pass the transport filter but
one accepted file exceeds multer's 50 MiB `fileSize` limit is aborted with a
`LIMIT_FILE_SIZE` error and answered 500 with no results array — not 201
with one entry per accepted file, refuting the claim as stated. -/
theorem upload_oversized_file_aborts_counterexample :
    c8OversizedBatch.filter fileFilterAccepts ≠ [] ∧
    (uploadRoute MemStorage.init c8OversizedBatch (fun _ => true)
      "2024-01-01").1.status = 500 ∧
    (uploadRoute MemStorage.init c8OversizedBatch (fun _ => true)
      "2024-01-01").1.status ≠ 201 ∧
    ((uploadRoute MemStorage.init c8OversizedBatch (fun _ => true)
      "2024-01-01").1.results).length = 0 := by
  refine ⟨by decide, rfl, by decide, rfl⟩

/-- C8 amended: whenever at least one file of the batch passes the multer
file filter and no filter-passing file exceeds the 50 MiB `fileSize` limit
(an oversized accepted file aborts the whole request with a `MulterError`,
answered 500 with no results array), the upload route answers 201 with
exactly one results entry per accepted file — each a success (with an id) or
an error (with a message), in batch order with matching file names —
regardless of how many individual files fail; filtered-out files yield no
entry. -/
theorem upload_batch_always_201_per_file_results (s : MemStorage)
    (batch : List IncomingFile) (env : Nat → Bool) (now : String)
    (h : batch.filter fileFilterAccepts ≠ [])
    (hsize : multerSizeAborts batch = false) :
    (uploadRoute s batch env now).1.status = 201 ∧
    ((uploadRoute s batch env now).1.results).length =
      (batch.filter fileFilterAccepts).length ∧
    ((uploadRoute s batch env now).1.results).map UploadEntry.entryFileName =
      (batch.filter fileFilterAccepts).map IncomingFile.originalname ∧
    ∀ r ∈ (uploadRoute s batch env now).1.results,
      (∃ i fn, r = UploadEntry.success i fn) ∨
      (∃ fn msg, r = UploadEntry.error fn msg) := by
  have hne : (batch.filter fileFilterAccepts).isEmpty = false := by
    rcases hf : batch.filter fileFilterAccepts with _ | _
    · exact absurd hf h
    · rfl
  obtain ⟨h1, h2, h3⟩ := processFiles_shape now (batch.filter fileFilterAccepts) env s 0
  rw [show uploadRoute s batch env now =
      ({ status := 201,
         results := (processFiles env now s 0 (batch.filter fileFilterAccepts)).1 },
       (processFiles env now s 0 (batch.filter fileFilterAccepts)).2) by
    simp [uploadRoute, hne, hsize]]
  exact ⟨rfl, h1, h2, h3⟩

/-- C8 witness: a batch of one accepted small jpeg and one filtered-out text
file, with the disk write failing for every file, still gets 201 and exactly
one entry (an error one for the jpeg). -/
theorem upload_batch_always_201_per_file_results_witness :
    (uploadRoute MemStorage.init
      [{ originalname := "beach.jpg", mimetype := "image/jpeg", size := 2,
         buffer := [1, 2] },
       { originalname := "note.txt", mimetype := "text/plain", size := 1,
         buffer := [3] }] (fun _ => false) "2024-01-01").1.status = 201 ∧
    ((uploadRoute MemStorage.init
      [{ originalname := "beach.jpg", mimetype := "image/jpeg", size := 2,
         buffer := [1, 2] },
       { originalname := "note.txt", mimetype := "text/plain", size := 1,
         buffer := [3] }] (fun _ => false) "2024-01-01").1.results).length =
      ([{ originalname := "beach.jpg", mimetype := "image/jpeg", size := 2,
          buffer := [1, 2] },
        { originalname := "note.txt", mimetype := "text/plain", size := 1,
          buffer := [3] }].filter fileFilterAccepts).length ∧
    ((uploadRoute MemStorage.init
      [{ originalname := "beach.jpg", mimetype := "image/jpeg", size := 2,
         buffer := [1, 2] },
       { originalname := "note.txt", mimetype := "text/plain", size := 1,
         buffer := [3] }] (fun _ => false) "2024-01-01").1.results).map
        UploadEntry.entryFileName =
      ([{ originalname := "beach.jpg", mimetype := "image/jpeg", size := 2,
          buffer := [1, 2] },
        { originalname := "note.txt", mimetype := "text/plain", size := 1,
          buffer := [3] }].filter fileFilterAccepts).map
        IncomingFile.originalname ∧
    ∀ r ∈ (uploadRoute MemStorage.init
      [{ originalname := "beach.jpg", mimetype := "image/jpeg", size := 2,
         buffer := [1, 2] },
       { originalname := "note.txt", mimetype := "text/plain", size := 1,
         buffer := [3] }] (fun _ => false) "2024-01-01").1.results,
      (∃ i fn, r = UploadEntry.success i fn) ∨
      (∃ fn msg, r = UploadEntry.error fn msg) :=
  upload_batch_always_201_per_file_results MemStorage.init
    [{ originalname := "beach.jpg", mimetype := "image/jpeg", size := 2,
       buffer := [1, 2] },
     { originalname := "note.txt", mimetype := "text/plain", size := 1,
       buffer := [3] }] (fun _ => false) "2024-01-01" (by decide) (by decide)

/-- C10: in the mirrored upload variant, the mirror upload is awaited before
local persistence.  A file whose mirror upload fails contributes an error
entry and nothing else: the remaining files are processed from the very same
storage state, so no local record and no blob were made for it.  A file whose
mirror upload succeeds (and whose disk write succeeds) gets a success entry
carrying the mirror URL and is registered under the current counter id with
`cloudinaryUrl` already present in the persisted record's metadata. -/
theorem mirror_before_local_persistence
    (env : Nat → Bool) (mirror : Nat → Option String) (now : String)
    (s t : MemStorage) (kF kS : Nat) (fF fS : IncomingFile)
    (restF restS : List IncomingFile) (url : String)
    (hF : mirror kF = none)
    (hS : mirror kS = some url) (hW : env kS = true) :
    processFilesMirror env mirror now s kF (fF :: restF) =
      (UploadEntry.error fF.originalname mirrorErrorMessage ::
        (processFilesMirror env mirror now s (kF + 1) restF).1,
       (processFilesMirror env mirror now s (kF + 1) restF).2) ∧
    (processFilesMirror env mirror now t kS (fS :: restS)).1 =
      UploadEntry.successMirror t.mediaCurrentId fS.originalname url ::
        (processFilesMirror env mirror now
          (processFilesMirror env mirror now t kS [fS]).2 (kS + 1) restS).1 ∧
    ∃ rec, alGet ((processFilesMirror env mirror now t kS [fS]).2).media
        t.mediaCurrentId = some rec ∧
      ("cloudinaryUrl", url) ∈ rec.metadata := by
  refine ⟨?_, ?_, ?_⟩
  · simp [processFilesMirror, hF]
  · simp [processFilesMirror, hS, hW, MemStorage.createMedia, mkMediaData]
  · refine Exists.intro
      { id := t.mediaCurrentId, fileName := fS.originalname,
        fileType := fS.mimetype, fileSize := fS.size, uploadDate := now,
        metadata := [("originalName", fS.originalname), ("cloudinaryUrl", url)] }
      ⟨?_, ?_⟩
    · simp [processFilesMirror, hS, hW, MemStorage.createMedia, mkMediaData,
        alGet_alSet_self]
    · simp

/-- C10 witness: with the mirror failing on file 0 and succeeding on file 1
(disk writes succeeding), both claimed behaviors hold at concrete inputs. -/
theorem mirror_before_local_persistence_witness :
    processFilesMirror (fun _ => true)
      (fun k => if k == 0 then none else some "https://cdn.example/u1")
      "2024-01-01" MemStorage.init 0
      [{ originalname := "a.jpg", mimetype := "image/jpeg", size := 2,
         buffer := [1, 2] }] =
      (UploadEntry.error "a.jpg" mirrorErrorMessage ::
        (processFilesMirror (fun _ => true)
          (fun k => if k == 0 then none else some "https://cdn.example/u1")
          "2024-01-01" MemStorage.init 1 []).1,
       (processFilesMirror (fun _ => true)
          (fun k => if k == 0 then none else some "https://cdn.example/u1")
          "2024-01-01" MemStorage.init 1 []).2) ∧
    (processFilesMirror (fun _ => true)
      (fun k => if k == 0 then none else some "https://cdn.example/u1")
      "2024-01-01" MemStorage.init 1
      [{ originalname := "b.png", mimetype := "image/png", size := 1,
         buffer := [3] }]).1 =
      UploadEntry.successMirror MemStorage.init.mediaCurrentId "b.png"
          "https://cdn.example/u1" ::
        (processFilesMirror (fun _ => true)
          (fun k => if k == 0 then none else some "https://cdn.example/u1")
          "2024-01-01"
          (processFilesMirror (fun _ => true)
            (fun k => if k == 0 then none else some "https://cdn.example/u1")
            "2024-01-01" MemStorage.init 1
            [{ originalname := "b.png", mimetype := "image/png", size := 1,
               buffer := [3] }]).2 2 []).1 ∧
    ∃ rec, alGet ((processFilesMirror (fun _ => true)
        (fun k => if k == 0 then none else some "https://cdn.example/u1")
        "2024-01-01" MemStorage.init 1
        [{ originalname := "b.png", mimetype := "image/png", size := 1,
           buffer := [3] }]).2).media MemStorage.init.mediaCurrentId =
        some rec ∧
      ("cloudinaryUrl", "https://cdn.example/u1") ∈ rec.metadata := by
  have h := mirror_before_local_persistence (fun _ => true)
    (fun k => if k == 0 then none else some "https://cdn.example/u1")
    "2024-01-01" MemStorage.init MemStorage.init 0 1
    { originalname := "a.jpg", mimetype := "image/jpeg", size := 2,
      buffer := [1, 2] }
    { originalname := "b.png", mimetype := "image/png", size := 1,
      buffer := [3] } [] [] "https://cdn.example/u1" rfl rfl rfl
  exact ⟨h.1, h.2.1, h.2.2⟩

end WeddingGallery
